import Mathlib

/-!
Verification of the credential-validation pipeline and the TLS trust-material
updater of the cross-vault-auth-plugin backend (Go sources `path_login.go`,
`backend.go`, plus the role and config record definitions).

The Go code is shallowly embedded: Go `map[string]string` values are modelled
with their nil/non-nil distinction because `reflect.DeepEqual` observes it,
remote calls are modelled by passing their results in as Except values, and a
nil-pointer dereference is a distinguished `panicked` outcome.
-/

namespace CrossVault

/-- Constant `WrappedTokenFull` from path_login.go. -/
def WrappedTokenFull : String := "token-full"

/-- Constant `WrappedTokenOnly` from path_login.go. -/
def WrappedTokenOnly : String := "token-only"

/-- Constant `WrappedAccessorOnly` from path_login.go. -/
def WrappedAccessorOnly : String := "accessor-only"

/-- Constant `tokenLookupPath` from path_login.go. -/
def tokenLookupPath : String := "auth/token/lookup"

/-- Constant `tokenPayloadKey` from path_login.go. -/
def tokenPayloadKey : String := "token"

/-- Constant `accessorLookupPath` from path_login.go. -/
def accessorLookupPath : String := "auth/token/lookup-accessor"

/-- Constant `accessorPayloadKey` from path_login.go. -/
def accessorPayloadKey : String := "accessor"

/-- A Go `map[string]string` value.  Go distinguishes the nil map from a
non-nil empty map; `reflect.DeepEqual` returns false between a nil and a
non-nil map even when both are empty, while indexing and `range` treat them
alike.  `entries` lists the key/value pairs (keys are distinct in any map a
Go program can build; `WF` records that, together with nil maps being empty). -/
structure GoStrMap where
  isNil : Bool
  entries : List (String × String)
deriving DecidableEq

/-- Well-formedness of a value of type `GoStrMap` as the image of an actual
Go map: keys are distinct, and the nil map has no entries. -/
def GoStrMap.WF (m : GoStrMap) : Prop :=
  (m.entries.map Prod.fst).Nodup ∧ (m.isNil = true → m.entries = [])

instance (m : GoStrMap) : Decidable m.WF := by
  unfold GoStrMap.WF; infer_instance

/-- Go map lookup returning an optional value (the `v, ok := m[k]` form). -/
def GoStrMap.find (m : GoStrMap) (k : String) : Option String :=
  List.lookup k m.entries

/-- Go map indexing `m[k]`: returns the zero value (the empty string) when
the key is absent. -/
def GoStrMap.get (m : GoStrMap) (k : String) : String :=
  (m.find k).getD ""

/-- `reflect.DeepEqual` on two `map[string]string` values: equal when both
are nil or both non-nil and they contain exactly the same key/value pairs. -/
def GoStrMap.deepEqual (m₁ m₂ : GoStrMap) : Bool :=
  m₁.isNil == m₂.isNil
    && m₁.entries.all (fun kv => m₂.find kv.1 == some kv.2)
    && m₂.entries.all (fun kv => m₁.find kv.1 == some kv.2)

/-- The fields of `crossVaultAuthRoleEntry` (path_role.go) read by the login
pipeline.  The embedded `tokenutil.TokenParams` (TTLs, policies, bound CIDRs,
and so on) is copied verbatim into the minted credential by
`PopulateTokenAuth` and never inspected by the matching policy, so it is not
modelled here. -/
structure RoleEntry where
  roleID : String
  entityID : String
  entityMeta : GoStrMap
  strictMetaVerify : Bool
deriving DecidableEq

/-- The part of the token/accessor lookup response that `validateSecret`
reads.  `entityID` is `resp.Data` at key `entity_id`, a dynamically typed
value: `some s` when the response carries the string `s`, `none` when the
field is absent (a nil interface value, which compares unequal to every
string).  `meta` is the decoded `resp.Data` at key `meta` as string pairs;
the Go code json-marshals that field and unmarshals it into a freshly made
(hence non-nil) `map[string]string`. -/
structure LookupResponse where
  entityID : Option String
  meta : List (String × String)
deriving DecidableEq

/-- The looked-up metadata map as `validateSecret` sees it after
`metadata := make(map[string]string)` followed by `json.Unmarshal`
(path_login.go lines 225 to 229): always a non-nil map holding the
response entries. -/
def LookupResponse.unmarshalledMeta (resp : LookupResponse) : GoStrMap :=
  { isNil := false, entries := resp.meta }

/-- The pure tail of `validateSecret` (path_login.go lines 216 to 243),
after the remote lookup has produced `resp`: the entity-id gate, then the
strict `reflect.DeepEqual` check when `role.StrictMetaVerify` is set, then
the key-by-key subset loop over `role.EntityMeta`. -/
def validateSecretCheck (role : RoleEntry) (resp : LookupResponse) : Bool :=
  if resp.entityID ≠ some role.entityID then
    false
  else if role.strictMetaVerify && !(resp.unmarshalledMeta.deepEqual role.entityMeta) then
    false
  else
    role.entityMeta.entries.all fun kv => resp.unmarshalledMeta.get kv.1 == kv.2

/-- A role created with `strict_meta_verify=true` and no `entity_meta`: the
stored JSON holds `entity_meta: null`, so the reloaded `EntityMeta` is the
nil map (the repo's own `TestRole_Read` asserts the nil map for such roles). -/
def roleStrictNilMeta : RoleEntry :=
  { roleID := "r1"
    entityID := "E1"
    entityMeta := { isNil := true, entries := [] }
    strictMetaVerify := true }

/-- A lookup response whose entity id matches `roleStrictNilMeta` and whose
metadata object is empty. -/
def lookupEmptyMeta : LookupResponse :=
  { entityID := some "E1", meta := [] }

/-- Claim C1: the spec states that the matching policy accepts whenever the
looked-up entity id equals the role's, both metadata mappings are empty,
regardless of `strictMetadataVerify`.  The code denies this instance: with
`strictMetaVerify = true` and the role's `EntityMeta` nil, the looked-up
metadata is rebuilt as a non-nil empty map and `reflect.DeepEqual` between a
non-nil empty map and a nil map is false, so the match fails although the
entity id matches and both mappings are empty. -/
theorem validateSecretCheck_strict_nil_meta_rejects :
    lookupEmptyMeta.entityID = some roleStrictNilMeta.entityID ∧
    lookupEmptyMeta.meta = [] ∧
    roleStrictNilMeta.entityMeta.entries = [] ∧
    validateSecretCheck roleStrictNilMeta lookupEmptyMeta = false := by
  decide

/-- Claim C4: with `strictMetadataVerify=true`, a looked-up metadata mapping
that agrees with `role.entityMeta` on all of the role's keys but contains at
least one extra key is rejected even when the entity id matches, because the
`reflect.DeepEqual` gate fails on the extra key. -/
theorem validateSecretCheck_strict_superset_no_match
    (role : RoleEntry) (resp : LookupResponse)
    (hstrict : role.strictMetaVerify = true)
    (hid : resp.entityID = some role.entityID)
    (hsub : ∀ kv ∈ role.entityMeta.entries, List.lookup kv.1 resp.meta = some kv.2)
    (hextra : ∃ kv ∈ resp.meta, List.lookup kv.1 role.entityMeta.entries = none) :
    validateSecretCheck role resp = false := by
  obtain ⟨kv, hmem, hnone⟩ := hextra
  have hAll : (resp.meta.all fun p => role.entityMeta.find p.1 == some p.2) = false := by
    rw [Bool.eq_false_iff]
    intro hall
    rw [List.all_eq_true] at hall
    have hkv := hall kv hmem
    rw [GoStrMap.find, hnone] at hkv
    simp at hkv
  unfold validateSecretCheck
  rw [if_neg (by simp [hid])]
  rw [if_pos]
  simp only [GoStrMap.deepEqual, LookupResponse.unmarshalledMeta, hstrict, hAll]
  simp

/-- Witness for claim C4 at the spec's Scenario C: role requires
`env=prod` strictly; lookup returns `env=prod, team=x`; no match. -/
theorem validateSecretCheck_strict_superset_no_match_witness :
    validateSecretCheck
      { roleID := "r1", entityID := "E1",
        entityMeta := { isNil := false, entries := [("env", "prod")] },
        strictMetaVerify := true }
      { entityID := some "E1", meta := [("env", "prod"), ("team", "x")] } = false :=
  validateSecretCheck_strict_superset_no_match _ _ rfl rfl (by decide) (by decide)

/-- Role with `strict_meta_verify=false` requiring key `a` with the empty
string as its value. -/
def roleEmptyStringValue : RoleEntry :=
  { roleID := "r2"
    entityID := "E1"
    entityMeta := { isNil := false, entries := [("a", "")] }
    strictMetaVerify := false }

/-- Lookup response matching `roleEmptyStringValue` on the entity id but
carrying no metadata at all. -/
def lookupMissingKey : LookupResponse :=
  { entityID := some "E1", meta := [] }

/-- Claim C5 counterexample: the claim says the subset-mode policy matches
exactly when every role key is contained in the looked-up metadata with an
equal value.  The code indexes the looked-up map with Go zero-value
semantics, so a role entry whose value is the empty string is satisfied by
an absent key: here the policy matches although the looked-up metadata does
not contain the required key. -/
theorem validateSecretCheck_subset_claim_counterexample :
    validateSecretCheck roleEmptyStringValue lookupMissingKey = true ∧
    ¬ ∀ kv ∈ roleEmptyStringValue.entityMeta.entries,
        List.lookup kv.1 lookupMissingKey.meta = some kv.2 := by
  decide

/-- Claim C5 (amended): with `strictMetadataVerify=false` and a matching
entity id, the policy matches exactly when every key of `role.entityMeta`
maps under Go zero-value indexing of the looked-up metadata to the role's
value, so an absent key counts as the empty string; extra looked-up keys
never prevent a match and an empty `role.entityMeta` matches anything. -/
theorem validateSecretCheck_subset_iff
    (role : RoleEntry) (resp : LookupResponse)
    (hstrict : role.strictMetaVerify = false)
    (hid : resp.entityID = some role.entityID) :
    validateSecretCheck role resp = true ↔
      ∀ kv ∈ role.entityMeta.entries,
        (List.lookup kv.1 resp.meta).getD "" = kv.2 := by
  unfold validateSecretCheck
  rw [if_neg (by simp [hid])]
  rw [hstrict]
  simp [GoStrMap.get, GoStrMap.find, LookupResponse.unmarshalledMeta, List.all_eq_true]

/-- Witness for claim C5 at the spec's Scenario D: role requires `env=prod`
in subset mode; lookup returns `env=prod, team=x`; the characterization
instantiates and the extra key does not prevent the match. -/
theorem validateSecretCheck_subset_iff_witness :
    validateSecretCheck
      { roleID := "r1", entityID := "E1",
        entityMeta := { isNil := false, entries := [("env", "prod")] },
        strictMetaVerify := false }
      { entityID := some "E1", meta := [("env", "prod"), ("team", "x")] } = true :=
  (validateSecretCheck_subset_iff _ _ rfl rfl).mpr (by decide)

/-- Claim C6: when the looked-up entity id differs from `role.entityID`
(including the absent case, since a nil interface value compares unequal to
every string), the policy rejects, whatever the metadata contents; the gate
is exact string equality. -/
theorem validateSecretCheck_entity_mismatch
    (role : RoleEntry) (resp : LookupResponse)
    (hid : resp.entityID ≠ some role.entityID) :
    validateSecretCheck role resp = false := by
  unfold validateSecretCheck
  rw [if_pos hid]

/-- Witness for claim C6 at the spec's Scenario B: lookup returns entity id
`E2` for a role bound to `E1`; rejection. -/
theorem validateSecretCheck_entity_mismatch_witness :
    validateSecretCheck
      { roleID := "r1", entityID := "E1",
        entityMeta := { isNil := true, entries := [] },
        strictMetaVerify := false }
      { entityID := some "E2", meta := [("env", "prod")] } = false :=
  validateSecretCheck_entity_mismatch _ _ (by decide)

/-- The named error values of backend.go (plus a constructor for errors that
arrive from storage, the remote cluster, client construction or `fmt.Errorf`). -/
inductive GoError
  | httpClientIsNotSet
  | tlsConfigIsNotSet
  | typeAssertionFailed
  | unknownLoginMethod
  | tokenNotFoundInWrappedData
  | accessorNotFoundInWrappedData
  | other (msg : String)
deriving DecidableEq

/-- Outcome of a Go computation: a value, a returned error, or a runtime
panic (nil-pointer dereference). -/
inductive GoResult (α : Type)
  | ok (a : α)
  | err (e : GoError)
  | panicked
deriving DecidableEq

/-- The parts of the unwrap response (`b.vc.Logical().UnwrapWithContext`)
that `unwrapSecret` reads: `auth` is `resp.Auth` with its `ClientToken`
(`none` models a nil `resp.Auth`), `data` is `resp.Data` restricted to its
string-valued fields, which are the only ones the code extracts. -/
structure UnwrapPayload where
  auth : Option String
  data : List (String × String)
deriving DecidableEq

/-- `crossVaultAuthBackendConfig` (path_config.go): cluster address, optional
namespace, optional CA certificate in PEM form, and the TLS skip-verify flag. -/
structure BackendConfig where
  cluster : String
  nspace : String
  caCert : String
  insecureSkipVerify : Bool
deriving DecidableEq

/-- `unwrapSecret` (path_login.go lines 176 to 199), with the result of the
remote unwrap call passed in.  The method dispatch is a string switch with
an unknown-method default; for the token-only and accessor-only methods the
unwrapped payload must hold key `secret`, otherwise the dedicated
missing-field error is returned; for the full-token method a nil `resp.Auth`
would make `resp.Auth.ClientToken` panic. -/
def unwrapSecret (method : String) (unwrapCall : Except GoError UnwrapPayload) :
    GoResult String :=
  match unwrapCall with
  | .error e => .err e
  | .ok resp =>
    if method = WrappedTokenFull then
      match resp.auth with
      | some token => .ok token
      | none => .panicked
    else if method = WrappedTokenOnly then
      match List.lookup "secret" resp.data with
      | some token => .ok token
      | none => .err .tokenNotFoundInWrappedData
    else if method = WrappedAccessorOnly then
      match List.lookup "secret" resp.data with
      | some accessor => .ok accessor
      | none => .err .accessorNotFoundInWrappedData
    else
      .err .unknownLoginMethod

/-- Lookup endpoint and payload key chosen by `validateSecret` (path_login.go
lines 205 to 210): the accessor-only method routes to the accessor-lookup
path, every other method to the token-lookup path. -/
def lookupRoute (method : String) : String × String :=
  if method = WrappedAccessorOnly then (accessorLookupPath, accessorPayloadKey)
  else (tokenLookupPath, tokenPayloadKey)

/-- `validateSecret` (path_login.go lines 201 to 244) with the result of the
remote lookup write passed in: a failed remote call propagates its error,
otherwise the response goes through `validateSecretCheck`. -/
def validateSecret (role : RoleEntry)
    (lookupCall : Except GoError LookupResponse) : GoResult Bool :=
  match lookupCall with
  | .error e => .err e
  | .ok resp => .ok (validateSecretCheck role resp)

/-- The environment of one login call: results of the two storage reads, of
`api.NewClient`, and of the two remote calls the pipeline may make.  The
role read is the result of `b.role(ctx, req.Storage, roleName)` for the
request's role name, the config read the result of `b.config`. -/
structure LoginEnv where
  roleRead : Except GoError (Option RoleEntry)
  configRead : Except GoError (Option BackendConfig)
  newClientErr : Option GoError
  unwrapCall : Except GoError UnwrapPayload
  lookupCall : Except GoError LookupResponse

/-- The auth object assembled on a successful login (path_login.go lines
151 to 165), restricted to the fields built from the role and role name. -/
structure AuthOut where
  displayName : String
  aliasName : String
  metaRole : String
  metaMappedEntityID : String
  orphan : Bool
  renewable : Bool
deriving DecidableEq

/-- Result of the login handler: a structured error response
(`logical.ErrorResponse(msg), nil`), a propagated Go error (`nil, err`), a
runtime panic, or a minted credential. -/
inductive LoginResult
  | errorResponse (msg : String)
  | internalError (e : GoError)
  | panicked
  | success (auth : AuthOut)
deriving DecidableEq

/-- A login outcome together with the number of remote lookup requests the
call issued (`validateSecret` performs its lookup write unconditionally on
entry, so the count is 1 from that point on and 0 before). -/
structure LoginOutcome where
  result : LoginResult
  lookupCalls : Nat
deriving DecidableEq

/-- `login` (path_login.go lines 93 to 167).  Field checks, role fetch with
an explicit nil check, config fetch with no nil check: `b.newConfig(config)`
reads `config.Cluster` (line 172), which panics on a nil config.  Then
client construction, unwrap, validate, and credential assembly. -/
def login (env : LoginEnv) (roleName secret method : String) : LoginOutcome :=
  if roleName = "" then
    { result := .errorResponse "\x27role\x27 field is mandatory", lookupCalls := 0 }
  else if secret = "" then
    { result := .errorResponse "\x27secret\x27 field is mandatory", lookupCalls := 0 }
  else
    match env.roleRead with
    | .error e => { result := .internalError e, lookupCalls := 0 }
    | .ok none =>
      { result := .errorResponse "role with provided name not found", lookupCalls := 0 }
    | .ok (some role) =>
      match env.configRead with
      | .error e => { result := .internalError e, lookupCalls := 0 }
      | .ok none => { result := .panicked, lookupCalls := 0 }
      | .ok (some _config) =>
        match env.newClientErr with
        | some e => { result := .internalError e, lookupCalls := 0 }
        | none =>
          match unwrapSecret method env.unwrapCall with
          | .err e => { result := .internalError e, lookupCalls := 0 }
          | .panicked => { result := .panicked, lookupCalls := 0 }
          | .ok _rawSecret =>
            match validateSecret role env.lookupCall with
            | .err e => { result := .internalError e, lookupCalls := 1 }
            | .panicked => { result := .panicked, lookupCalls := 1 }
            | .ok validated =>
              if !validated then
                { result := .errorResponse "role validation failed", lookupCalls := 1 }
              else
                { result := .success
                    { displayName := roleName ++ "-" ++ role.entityID
                      aliasName := role.roleID
                      metaRole := roleName
                      metaMappedEntityID := role.entityID
                      orphan := true
                      renewable := false }
                  lookupCalls := 1 }

/-- Result of the alias-lookahead handler: a returned Go error, a runtime
panic, or a response holding the alias name. -/
inductive LookaheadResult
  | goError (e : GoError)
  | panicked
  | aliasResp (aliasName : String)
deriving DecidableEq

/-- `loginAliasLookahead` (path_login.go lines 69 to 91): empty role name is
an error; a storage error propagates; otherwise `role.RoleID` is read with
no nil check, so an absent role makes the handler dereference nil. -/
def loginAliasLookahead (env : LoginEnv) (roleName : String) : LookaheadResult :=
  if roleName = "" then
    .goError (.other "\x27role\x27 field is mandatory")
  else
    match env.roleRead with
    | .error e => .goError e
    | .ok none => .panicked
    | .ok (some role) => .aliasResp role.roleID

/-- A sample role for concrete login runs. -/
def roleSample : RoleEntry :=
  { roleID := "role-uuid-1"
    entityID := "E1"
    entityMeta := { isNil := true, entries := [] }
    strictMetaVerify := false }

/-- Login environment in which the role exists but the backend configuration
was never written: the config read succeeds and returns the nil config. -/
def envAbsentConfig : LoginEnv :=
  { roleRead := .ok (some roleSample)
    configRead := .ok none
    newClientErr := none
    unwrapCall := .ok { auth := some "t1", data := [] }
    lookupCall := .ok { entityID := some "E1", meta := [] } }

/-- Claim C2: the spec requires an explicit rejection when the backend
configuration is absent.  The code instead passes the nil config straight to
`newConfig`, which dereferences `config.Cluster`, so a login against an
existing role with no stored configuration panics with a nil-pointer
dereference instead of rejecting. -/
theorem login_absent_config_panics :
    envAbsentConfig.roleRead = .ok (some roleSample) ∧
    envAbsentConfig.configRead = .ok none ∧
    (login envAbsentConfig "sample" "s1" WrappedTokenFull).result = .panicked :=
  ⟨rfl, rfl, rfl⟩

/-- Claim C7: for the token-only and the accessor-only methods, when the
unwrapped payload has no key `secret`, the resolver fails with the matching
missing-field error, the login returns that error, and the remote lookup is
never attempted (zero lookup calls). -/
theorem login_missing_secret_key_no_lookup
    (env : LoginEnv) (roleName secret : String) (role : RoleEntry)
    (cfg : BackendConfig) (payload : UnwrapPayload)
    (hname : roleName ≠ "") (hsecret : secret ≠ "")
    (hrole : env.roleRead = .ok (some role))
    (hcfg : env.configRead = .ok (some cfg))
    (hclient : env.newClientErr = none)
    (hunwrap : env.unwrapCall = .ok payload)
    (hmissing : List.lookup "secret" payload.data = none) :
    login env roleName secret WrappedTokenOnly =
      { result := .internalError .tokenNotFoundInWrappedData, lookupCalls := 0 } ∧
    login env roleName secret WrappedAccessorOnly =
      { result := .internalError .accessorNotFoundInWrappedData, lookupCalls := 0 } := by
  unfold login unwrapSecret
  simp only [hrole, hcfg, hclient, hunwrap, hmissing, if_neg hname, if_neg hsecret]
  exact ⟨rfl, rfl⟩

/-- Login environment for the witness of claim C7: role and config present,
unwrap succeeds but its payload lacks the key `secret`. -/
def envMissingSecretKey : LoginEnv :=
  { roleRead := .ok (some roleSample)
    configRead := .ok (some { cluster := "https://leader:8200", nspace := "root",
                              caCert := "", insecureSkipVerify := false })
    newClientErr := none
    unwrapCall := .ok { auth := some "t1", data := [("other", "v")] }
    lookupCall := .ok { entityID := some "E1", meta := [] } }

/-- Witness for claim C7 at a concrete login call. -/
theorem login_missing_secret_key_no_lookup_witness :
    login envMissingSecretKey "sample" "s1" WrappedTokenOnly =
      { result := .internalError .tokenNotFoundInWrappedData, lookupCalls := 0 } ∧
    login envMissingSecretKey "sample" "s1" WrappedAccessorOnly =
      { result := .internalError .accessorNotFoundInWrappedData, lookupCalls := 0 } :=
  login_missing_secret_key_no_lookup _ _ _ _ _ _
    (by decide) (by decide) rfl rfl rfl rfl (by decide)

/-- Claim C10: on a role name that is not in storage, the alias-lookahead
handler dereferences the nil role (reading `role.RoleID` with no nil check)
and panics, returning neither a structured rejection nor an error, while the
login handler on the same storage state returns the structured
role-not-found rejection. -/
theorem loginAliasLookahead_absent_role_panics
    (env : LoginEnv) (roleName : String)
    (hname : roleName ≠ "")
    (hrole : env.roleRead = .ok none) :
    loginAliasLookahead env roleName = .panicked ∧
    ∀ secret method : String, secret ≠ "" →
      (login env roleName secret method).result =
        .errorResponse "role with provided name not found" := by
  constructor
  · unfold loginAliasLookahead
    rw [if_neg hname, hrole]
  · intro secret method hsecret
    unfold login
    rw [if_neg hname, if_neg hsecret, hrole]

/-- Login environment in which the requested role is absent from storage. -/
def envAbsentRole : LoginEnv :=
  { roleRead := .ok none
    configRead := .ok none
    newClientErr := none
    unwrapCall := .ok { auth := none, data := [] }
    lookupCall := .ok { entityID := none, meta := [] } }

/-- Witness for claim C10 at a concrete request. -/
theorem loginAliasLookahead_absent_role_panics_witness :
    loginAliasLookahead envAbsentRole "ghost" = .panicked ∧
    (login envAbsentRole "ghost" "s1" WrappedTokenFull).result =
      .errorResponse "role with provided name not found" :=
  ⟨(loginAliasLookahead_absent_role_panics envAbsentRole "ghost"
      (by decide) rfl).1,
   (loginAliasLookahead_absent_role_panics envAbsentRole "ghost"
      (by decide) rfl).2 "s1" WrappedTokenFull (by decide)⟩

/-- The TLS-relevant state of `crossVaultAuthBackend` (backend.go).
`httpClientSet` and `tlsConfigSet` record the nil-ness of `b.httpClient` and
`b.tlsConfig`; `transportOk` records whether `b.httpClient.Transport` is an
`http.Transport`; `rootCAs` is `b.tlsConfig.RootCAs`, nil or a certificate
set; `poolGen` counts how many times the installed pool object has been
replaced, so two states with the same `poolGen` hold the same pool object;
`loopCount` counts updater goroutines ever started. -/
structure TLSBackendState where
  httpClientSet : Bool
  transportOk : Bool
  tlsConfigSet : Bool
  rootCAs : Option (List String)
  insecureSkipVerify : Bool
  poolGen : Nat
  tlsConfigUpdateRunning : Bool
  loopCount : Nat
deriving DecidableEq

/-- `validateHTTPClient` (backend.go lines 81 to 89): the HTTP client is
checked first, then the TLS config. -/
def validateHTTPClient (b : TLSBackendState) : Option GoError :=
  if !b.httpClientSet then some .httpClientIsNotSet
  else if !b.tlsConfigSet then some .tlsConfigIsNotSet
  else none

/-- Certificate-set equality, as `x509.CertPool.Equal` compares two non-nil
pools: they hold the same set of certificates. -/
def certSetEq (l₁ l₂ : List String) : Bool :=
  l₁.all (fun c => l₂.contains c) && l₂.all (fun c => l₁.contains c)

/-- `x509.CertPool.Equal` including its nil handling: two nil pools are
equal, a nil pool differs from every non-nil pool (even an empty one). -/
def poolEqual : Option (List String) → Option (List String) → Bool
  | none, none => true
  | none, some _ => false
  | some _, none => false
  | some l₁, some l₂ => certSetEq l₁ l₂

/-- The pool built by `updateTLSConfig` (backend.go lines 230 to 241):
start from a fresh empty pool, and when the configured PEM string is
nonempty append whatever valid certificates it parses to; `parsePEM` stands
for the certificate extraction done by `AppendCertsFromPEM`, which yields
nothing on malformed PEM data (the code only logs a warning then). -/
def builtCertPool (parsePEM : String → List String) (config : BackendConfig) :
    List String :=
  if config.caCert ≠ "" then parsePEM config.caCert else []

/-- The method `updateTLSConfig` (backend.go lines 220 to 254): validate the
client, build the candidate pool, and only when it differs from the
installed pool (by `CertPool.Equal`) assert the transport type and install
the new pool together with the configuration's skip-verify flag. -/
def updateTLSConfigB (parsePEM : String → List String) (b : TLSBackendState)
    (config : BackendConfig) : GoResult Unit × TLSBackendState :=
  match validateHTTPClient b with
  | some e => (.err e, b)
  | none =>
    if poolEqual b.rootCAs (some (builtCertPool parsePEM config)) then
      (.ok (), b)
    else if !b.transportOk then
      (.err .typeAssertionFailed, b)
    else
      (.ok (), { b with
        rootCAs := some (builtCertPool parsePEM config)
        insecureSkipVerify := config.insecureSkipVerify
        poolGen := b.poolGen + 1 })

/-- The package-level `updateTLSConfig` (backend.go lines 256 to 271): read
the configuration; a storage error propagates, an absent configuration is a
logged skip, otherwise the method above runs on the read configuration. -/
def updateTLSConfigStep (parsePEM : String → List String) (b : TLSBackendState)
    (configRead : Except GoError (Option BackendConfig)) :
    GoResult Unit × TLSBackendState :=
  match configRead with
  | .error e => (.err e, b)
  | .ok none => (.ok (), b)
  | .ok (some config) => updateTLSConfigB parsePEM b config

/-- `runTLSConfigUpdater` (backend.go lines 171 to 218): under the TLS lock,
return success at once when the updater is already recorded as running,
otherwise validate the client and, on success, start the loop goroutine and
wait until it has recorded itself as running. -/
def runTLSConfigUpdater (b : TLSBackendState) : GoResult Unit × TLSBackendState :=
  if b.tlsConfigUpdateRunning then (.ok (), b)
  else
    match validateHTTPClient b with
    | some e => (.err e, b)
    | none =>
      (.ok (), { b with tlsConfigUpdateRunning := true, loopCount := b.loopCount + 1 })

/-- The two precondition errors of `validateHTTPClient`. -/
def isPreconditionError : GoResult Unit → Bool
  | .err .httpClientIsNotSet => true
  | .err .tlsConfigIsNotSet => true
  | _ => false

/-- Claim C8: starting the updater is idempotent: when it is already
recorded as running, start succeeds without starting another loop; and
start fails with a precondition error exactly when it is not already
running and the HTTP client or the TLS config is unset (the running check
precedes the validation, as in the spec sentence). -/
theorem runTLSConfigUpdater_idempotent_and_precondition (b : TLSBackendState) :
    (b.tlsConfigUpdateRunning = true →
      (runTLSConfigUpdater b).1 = .ok () ∧
      (runTLSConfigUpdater b).2.loopCount = b.loopCount) ∧
    (isPreconditionError (runTLSConfigUpdater b).1 = true ↔
      b.tlsConfigUpdateRunning = false ∧
        (b.httpClientSet = false ∨ b.tlsConfigSet = false)) := by
  unfold runTLSConfigUpdater validateHTTPClient
  by_cases hrun : b.tlsConfigUpdateRunning <;>
    by_cases hc : b.httpClientSet <;>
      by_cases ht : b.tlsConfigSet <;>
        simp [hrun, hc, ht, isPreconditionError]

/-- A backend state whose updater is already running. -/
def bAlreadyRunning : TLSBackendState :=
  { httpClientSet := true, transportOk := true, tlsConfigSet := true
    rootCAs := none, insecureSkipVerify := false, poolGen := 0
    tlsConfigUpdateRunning := true, loopCount := 1 }

/-- Witness for claim C8: a second start on a running updater succeeds and
starts no further loop. -/
theorem runTLSConfigUpdater_idempotent_and_precondition_witness :
    (runTLSConfigUpdater bAlreadyRunning).1 = .ok () ∧
    (runTLSConfigUpdater bAlreadyRunning).2.loopCount = bAlreadyRunning.loopCount :=
  (runTLSConfigUpdater_idempotent_and_precondition bAlreadyRunning).1 rfl

/-- The certificate extraction of `AppendCertsFromPEM` on PEM data that
contains no valid certificate: nothing is appended. -/
def pemParseNone : String → List String := fun _ => []

/-- A state with an empty (non-nil) trust pool already installed, as left by
an earlier refresh of a configuration without usable CA certificates. -/
def bEmptyPoolInstalled : TLSBackendState :=
  { httpClientSet := true, transportOk := true, tlsConfigSet := true
    rootCAs := some [], insecureSkipVerify := false, poolGen := 1
    tlsConfigUpdateRunning := true, loopCount := 1 }

/-- A configuration read whose only change against the installed material is
the skip-verify flag, now true. -/
def cfgFlagFlipped : BackendConfig :=
  { cluster := "https://leader:8200", nspace := "root"
    caCert := "", insecureSkipVerify := true }

/-- Claim C3 counterexample: a refresh that reads a configuration whose CA
material is unchanged but whose skip-verify flag changed succeeds yet leaves
the installed flag at its old value, so after this successful refresh the
installed flag does not mirror the configuration just read. -/
theorem updateTLSConfig_stale_flag_counterexample :
    (updateTLSConfigStep pemParseNone bEmptyPoolInstalled (.ok (some cfgFlagFlipped))).1
      = .ok () ∧
    (updateTLSConfigStep pemParseNone bEmptyPoolInstalled (.ok (some cfgFlagFlipped))).2.insecureSkipVerify
      ≠ cfgFlagFlipped.insecureSkipVerify := by
  decide

/-- Claim C3 (amended): a successful refresh that read a configuration
either replaces nothing (the new pool equals the installed one, and then the
skip-verify flag, too, keeps its previous value, possibly stale with respect
to this read) or replaces the pool and the skip-verify flag together, both
taken from that same configuration read. -/
theorem updateTLSConfig_swap_is_consistent
    (parsePEM : String → List String) (b : TLSBackendState) (config : BackendConfig)
    (hok : (updateTLSConfigStep parsePEM b (.ok (some config))).1 = .ok ()) :
    (updateTLSConfigStep parsePEM b (.ok (some config))).2 = b ∨
    ((updateTLSConfigStep parsePEM b (.ok (some config))).2.rootCAs
        = some (builtCertPool parsePEM config) ∧
      (updateTLSConfigStep parsePEM b (.ok (some config))).2.insecureSkipVerify
        = config.insecureSkipVerify ∧
      (updateTLSConfigStep parsePEM b (.ok (some config))).2.poolGen = b.poolGen + 1) := by
  by_cases hc : b.httpClientSet = true
  · by_cases ht : b.tlsConfigSet = true
    · by_cases hpool : poolEqual b.rootCAs (some (builtCertPool parsePEM config)) = true
      · left
        simp [updateTLSConfigStep, updateTLSConfigB, validateHTTPClient, hc, ht, hpool]
      · by_cases htr : b.transportOk = true
        · right
          simp [updateTLSConfigStep, updateTLSConfigB, validateHTTPClient, hc, ht, hpool, htr]
        · exfalso
          simp [updateTLSConfigStep, updateTLSConfigB, validateHTTPClient,
                hc, ht, hpool, htr] at hok
    · exfalso
      simp [updateTLSConfigStep, updateTLSConfigB, validateHTTPClient, hc, ht] at hok
  · exfalso
    simp [updateTLSConfigStep, updateTLSConfigB, validateHTTPClient, hc] at hok

/-- A freshly initialized backend state: nil `RootCAs`, nothing installed
yet. -/
def bFreshSetup : TLSBackendState :=
  { httpClientSet := true, transportOk := true, tlsConfigSet := true
    rootCAs := none, insecureSkipVerify := false, poolGen := 0
    tlsConfigUpdateRunning := true, loopCount := 1 }

/-- Witness for claim C3 (amended) at a first refresh on a fresh state: the
refresh swaps, and pool and flag come from the same configuration read. -/
theorem updateTLSConfig_swap_is_consistent_witness :
    (updateTLSConfigStep pemParseNone bFreshSetup (.ok (some cfgFlagFlipped))).2 = bFreshSetup ∨
    ((updateTLSConfigStep pemParseNone bFreshSetup (.ok (some cfgFlagFlipped))).2.rootCAs
        = some (builtCertPool pemParseNone cfgFlagFlipped) ∧
      (updateTLSConfigStep pemParseNone bFreshSetup (.ok (some cfgFlagFlipped))).2.insecureSkipVerify
        = cfgFlagFlipped.insecureSkipVerify ∧
      (updateTLSConfigStep pemParseNone bFreshSetup (.ok (some cfgFlagFlipped))).2.poolGen
        = bFreshSetup.poolGen + 1) :=
  updateTLSConfig_swap_is_consistent pemParseNone bFreshSetup cfgFlagFlipped rfl

/-- A configuration carrying PEM data that contains no valid certificate. -/
def cfgGarbagePEMA : BackendConfig :=
  { cluster := "https://leader:8200", nspace := "root"
    caCert := "not-a-pem-block-A", insecureSkipVerify := false }

/-- A second configuration with different PEM data, equally free of valid
certificates. -/
def cfgGarbagePEMB : BackendConfig :=
  { cluster := "https://leader:8200", nspace := "root"
    caCert := "not-a-pem-block-B", insecureSkipVerify := false }

/-- Claim C9 counterexample: after a refresh installed the (empty) pool of a
configuration whose PEM data parses to no certificates, a further refresh
with changed CA PEM content that still parses to no certificates succeeds
without replacing the installed pool object, although the PEM content
changed. -/
theorem updateTLSConfig_pem_change_no_swap_counterexample :
    cfgGarbagePEMA.caCert ≠ cfgGarbagePEMB.caCert ∧
    (updateTLSConfigStep pemParseNone bFreshSetup (.ok (some cfgGarbagePEMA))).1 = .ok () ∧
    (updateTLSConfigStep pemParseNone
        (updateTLSConfigStep pemParseNone bFreshSetup (.ok (some cfgGarbagePEMA))).2
        (.ok (some cfgGarbagePEMB))).1 = .ok () ∧
    (updateTLSConfigStep pemParseNone
        (updateTLSConfigStep pemParseNone bFreshSetup (.ok (some cfgGarbagePEMA))).2
        (.ok (some cfgGarbagePEMB))).2.poolGen =
      (updateTLSConfigStep pemParseNone bFreshSetup (.ok (some cfgGarbagePEMA))).2.poolGen := by
  decide

/-- Helper: certificate-set equality is reflexive. -/
theorem certSetEq_refl (l : List String) : certSetEq l l = true := by
  simp [certSetEq, List.all_eq_true]

/-- Helper: a non-nil pool equals itself under `CertPool.Equal`. -/
theorem poolEqual_some_self (l : List String) : poolEqual (some l) (some l) = true := by
  simp [poolEqual, certSetEq_refl]

/-- Claim C9 (amended): running the refresh twice in succession with the
same configuration leaves, after a successful first run, the second run a
no-op (same installed pool object, same state); and a refresh on a valid
state replaces the installed pool exactly when the certificate set parsed
from the configured PEM differs from the installed pool, which a mere PEM
text change without a certificate-set change does not trigger. -/
theorem updateTLSConfig_refresh_idempotent_and_change
    (parsePEM : String → List String) (b : TLSBackendState) (config : BackendConfig) :
    ((updateTLSConfigStep parsePEM b (.ok (some config))).1 = .ok () →
      updateTLSConfigStep parsePEM
          (updateTLSConfigStep parsePEM b (.ok (some config))).2 (.ok (some config)) =
        (.ok (), (updateTLSConfigStep parsePEM b (.ok (some config))).2)) ∧
    (b.httpClientSet = true → b.tlsConfigSet = true → b.transportOk = true →
      ((updateTLSConfigStep parsePEM b (.ok (some config))).2.poolGen = b.poolGen + 1 ↔
        poolEqual b.rootCAs (some (builtCertPool parsePEM config)) = false)) := by
  constructor
  · intro hok
    by_cases hc : b.httpClientSet = true
    · by_cases ht : b.tlsConfigSet = true
      · by_cases hpool : poolEqual b.rootCAs (some (builtCertPool parsePEM config)) = true
        · simp [updateTLSConfigStep, updateTLSConfigB, validateHTTPClient, hc, ht, hpool]
        · by_cases htr : b.transportOk = true
          · simp [updateTLSConfigStep, updateTLSConfigB, validateHTTPClient,
                  hc, ht, hpool, htr, poolEqual_some_self]
          · exfalso
            simp [updateTLSConfigStep, updateTLSConfigB, validateHTTPClient,
                  hc, ht, hpool, htr] at hok
      · exfalso
        simp [updateTLSConfigStep, updateTLSConfigB, validateHTTPClient, hc, ht] at hok
    · exfalso
      simp [updateTLSConfigStep, updateTLSConfigB, validateHTTPClient, hc] at hok
  · intro hc ht htr
    by_cases hpool : poolEqual b.rootCAs (some (builtCertPool parsePEM config)) = true
    · have hgen : ¬ (b.poolGen = b.poolGen + 1) := by omega
      simp [updateTLSConfigStep, updateTLSConfigB, validateHTTPClient, hc, ht, hpool, hgen]
    · simp [updateTLSConfigStep, updateTLSConfigB, validateHTTPClient, hc, ht, hpool, htr]

/-- Witness for claim C9 (amended): on a fresh state, a first refresh with
garbage-PEM configuration swaps the pool in (nil pool differs from the empty
pool), and the immediately repeated refresh is a no-op. -/
theorem updateTLSConfig_refresh_idempotent_and_change_witness :
    updateTLSConfigStep pemParseNone
        (updateTLSConfigStep pemParseNone bFreshSetup (.ok (some cfgGarbagePEMA))).2
        (.ok (some cfgGarbagePEMA)) =
      (.ok (), (updateTLSConfigStep pemParseNone bFreshSetup (.ok (some cfgGarbagePEMA))).2) ∧
    ((updateTLSConfigStep pemParseNone bFreshSetup (.ok (some cfgGarbagePEMA))).2.poolGen
        = bFreshSetup.poolGen + 1 ↔
      poolEqual bFreshSetup.rootCAs
        (some (builtCertPool pemParseNone cfgGarbagePEMA)) = false) :=
  ⟨(updateTLSConfig_refresh_idempotent_and_change
      pemParseNone bFreshSetup cfgGarbagePEMA).1 rfl,
   (updateTLSConfig_refresh_idempotent_and_change
      pemParseNone bFreshSetup cfgGarbagePEMA).2 rfl rfl rfl⟩

end CrossVault
